import Mathlib

/-!
Shallow embedding of the presence and room-state store of the
webrtc-signaling repository (`server/rooms.js`, Redis-backed variant, and
`server/redis.js`).  The store keeps room records, membership hashes, user
sessions and a bounded chat log either in a remote Redis instance or in an
in-process memory fallback, selected by a single availability check at the
start of each operation.  JavaScript `Map`s and Redis hashes are modelled as
association lists with unique keys; timestamps (`Date.now()`) are passed in
explicitly as a `now : Nat` parameter; chat messages are opaque strings
(the code only ever `JSON.stringify`/`parse`s them).
-/

namespace Signaling

/-- First-match lookup in an association list (JS `Map.get` / Redis `HGET`). -/
def alookup (k : String) : List (String × α) → Option α
  | [] => none
  | (k', v) :: t => if k' = k then some v else alookup k t

/-- Insert or update a binding, keeping the position of an existing key
(JS `Map.set` / Redis `HSET` of a single field). -/
def aset (k : String) (v : α) : List (String × α) → List (String × α)
  | [] => [(k, v)]
  | (k', v') :: t => if k' = k then (k, v) :: t else (k', v') :: aset k v t

/-- Remove a binding (JS `Map.delete` / Redis `HDEL` / `DEL`). -/
def aerase (k : String) (l : List (String × α)) : List (String × α) :=
  l.filter (fun p => !(p.1 = k))

/-- Room metadata hash stored at key `room:<id>`: fields `password`,
`hasPassword` (the strings `'0'`/`'1'`), `startTime`, `createdAt`, and the
optional `recovered` marker (modelled as a Bool; the code writes the string
`'true'` only on recovery paths). -/
structure RoomData where
  password : String
  hasPassword : String
  startTime : Nat
  createdAt : Nat
  recovered : Bool
deriving Repr, DecidableEq

/-- A room member `{id, displayName}` as stored (JSON) in `room:<id>:members`. -/
structure Member where
  id : String
  displayName : String
deriving Repr, DecidableEq

/-- Session hash stored at key `user:<socketId>`. -/
structure Session where
  roomId : String
  displayName : String
  joinedAt : Nat
deriving Repr, DecidableEq

/-- `ROOM_TTL` from `server/redis.js`: 24 hours in seconds. -/
def ROOM_TTL : Nat := 24 * 60 * 60

/-- JS truthiness of a `string|null` password (`null` and `''` are falsy). -/
def pwTruthy : Option String → Bool
  | none => false
  | some s => !(s = "")

/-- `password || ''`. -/
def pwOrEmpty : Option String → String
  | none => ""
  | some s => s

/-- `password ? '1' : '0'`. -/
def pwFlag (p : Option String) : String :=
  if pwTruthy p then "1" else "0"

/-- `roomData.password !== password` where the stored value is a string and
the supplied password is `string|null` (a string is never `===` null). -/
def pwMismatch (stored : String) : Option String → Bool
  | none => true
  | some w => !(stored = w)

/-- `displayName || 'User-' + socketId.slice(0, 6)`. -/
def defaultName (socketId : String) : Option String → String
  | none => "User-" ++ String.mk (socketId.toList.take 6)
  | some d => if d = "" then "User-" ++ String.mk (socketId.toList.take 6) else d

/-- The remote (Redis) keyspace: the four key families plus the
`active_rooms` set, each data key paired with a TTL table (`EXPIRE` writes
it, `DEL` and hash auto-removal clear it). -/
structure RedisState where
  rooms : List (String × RoomData)
  roomsTTL : List (String × Nat)
  members : List (String × List (String × Member))
  membersTTL : List (String × Nat)
  chat : List (String × List String)
  chatTTL : List (String × Nat)
  users : List (String × Session)
  usersTTL : List (String × Nat)
  activeRooms : List String
deriving Repr, DecidableEq

/-- The in-process fallback `memoryStore` (no TTLs, no active-rooms set). -/
structure MemoryState where
  rooms : List (String × RoomData)
  members : List (String × List (String × Member))
  users : List (String × Session)
  chat : List (String × List String)
deriving Repr, DecidableEq

/-- Both backends side by side; each operation acts on exactly one of them. -/
structure Store where
  redis : RedisState
  memory : MemoryState
deriving Repr, DecidableEq

def emptyRedis : RedisState := ⟨[], [], [], [], [], [], [], [], []⟩

def emptyMemory : MemoryState := ⟨[], [], [], []⟩

def emptyStore : Store := ⟨emptyRedis, emptyMemory⟩

namespace RedisState

/-- `HSET room:<id> <full hash>` (the code only writes whole room hashes). -/
def hsetRoom (R : RedisState) (roomId : String) (d : RoomData) : RedisState :=
  { R with rooms := aset roomId d R.rooms }

/-- `EXPIRE room:<id> ttl` (a no-op when the key does not exist). -/
def expireRoom (R : RedisState) (roomId : String) (t : Nat) : RedisState :=
  if (alookup roomId R.rooms).isSome then
    { R with roomsTTL := aset roomId t R.roomsTTL }
  else R

/-- `HSET room:<id>:members socketId <json>`. -/
def hsetMember (R : RedisState) (roomId socketId : String) (m : Member) : RedisState :=
  let cur := (alookup roomId R.members).getD []
  { R with members := aset roomId (aset socketId m cur) R.members }

/-- `HDEL room:<id>:members socketId`; Redis removes a hash key (and its
TTL) when its last field is deleted. -/
def hdelMember (R : RedisState) (roomId socketId : String) : RedisState :=
  match alookup roomId R.members with
  | none => R
  | some cur =>
    let cur' := aerase socketId cur
    if cur'.isEmpty then
      { R with members := aerase roomId R.members,
               membersTTL := aerase roomId R.membersTTL }
    else
      { R with members := aset roomId cur' R.members }

/-- `HLEN room:<id>:members` (0 for a missing key). -/
def hlenMembers (R : RedisState) (roomId : String) : Nat :=
  ((alookup roomId R.members).getD []).length

/-- `EXPIRE room:<id>:members ttl`. -/
def expireMembers (R : RedisState) (roomId : String) (t : Nat) : RedisState :=
  if (alookup roomId R.members).isSome then
    { R with membersTTL := aset roomId t R.membersTTL }
  else R

/-- `HSET user:<socketId> <full hash>`. -/
def hsetUser (R : RedisState) (socketId : String) (s : Session) : RedisState :=
  { R with users := aset socketId s R.users }

/-- `EXPIRE user:<socketId> ttl`. -/
def expireUser (R : RedisState) (socketId : String) (t : Nat) : RedisState :=
  if (alookup socketId R.users).isSome then
    { R with usersTTL := aset socketId t R.usersTTL }
  else R

/-- `DEL user:<socketId>`. -/
def delUser (R : RedisState) (socketId : String) : RedisState :=
  { R with users := aerase socketId R.users, usersTTL := aerase socketId R.usersTTL }

/-- `DEL room:<id>`. -/
def delRoom (R : RedisState) (roomId : String) : RedisState :=
  { R with rooms := aerase roomId R.rooms, roomsTTL := aerase roomId R.roomsTTL }

/-- `DEL room:<id>:members`. -/
def delMembers (R : RedisState) (roomId : String) : RedisState :=
  { R with members := aerase roomId R.members, membersTTL := aerase roomId R.membersTTL }

/-- `DEL room:<id>:chat`. -/
def delChat (R : RedisState) (roomId : String) : RedisState :=
  { R with chat := aerase roomId R.chat, chatTTL := aerase roomId R.chatTTL }

/-- `SADD active_rooms roomId`. -/
def saddActive (R : RedisState) (roomId : String) : RedisState :=
  if roomId ∈ R.activeRooms then R
  else { R with activeRooms := R.activeRooms ++ [roomId] }

/-- `SREM active_rooms roomId`. -/
def sremActive (R : RedisState) (roomId : String) : RedisState :=
  { R with activeRooms := R.activeRooms.filter (fun x => !(x = roomId)) }

end RedisState

/-- Result object of `createRoom`. -/
structure CreateResult where
  success : Bool
  error : Option String := none
  hasPassword : Option Bool := none
  startTime : Option Nat := none
deriving Repr, DecidableEq

/-- Result object of `checkRoom`. -/
structure CheckResult where
  roomExists : Bool
  hasPassword : Option Bool := none
  userCount : Option Nat := none
  startTime : Option Nat := none
deriving Repr, DecidableEq

/-- Result object of `joinRoom`. -/
structure JoinResult where
  success : Bool
  error : Option String := none
  requiresPassword : Option Bool := none
  users : Option (List Member) := none
  currentUser : Option Member := none
  startTime : Option Nat := none
deriving Repr, DecidableEq

/-- Result object of `getRoom` (the `{...roomData, hasPassword, startTime}`
spread). -/
structure RoomInfo where
  password : String
  hasPassword : Bool
  startTime : Nat
  createdAt : Nat
  recovered : Bool
deriving Repr, DecidableEq

/-- `createRoom`, remote branch (lines 36-53 of the store). -/
def createRoomRemote (now : Nat) (roomId : String) (pw : Option String)
    (R : RedisState) : CreateResult × RedisState :=
  let roomData : RoomData :=
    { password := pwOrEmpty pw, hasPassword := pwFlag pw,
      startTime := now, createdAt := now, recovered := false }
  if (alookup roomId R.rooms).isSome then
    ({ success := false, error := some "Room already exists" }, R)
  else
    let R1 := ((R.hsetRoom roomId roomData).expireRoom roomId ROOM_TTL).saddActive roomId
    ({ success := true, hasPassword := some (pwTruthy pw), startTime := some now }, R1)

/-- `createRoom`, memory fallback branch (lines 26-34). -/
def createRoomMemory (now : Nat) (roomId : String) (pw : Option String)
    (M : MemoryState) : CreateResult × MemoryState :=
  let roomData : RoomData :=
    { password := pwOrEmpty pw, hasPassword := pwFlag pw,
      startTime := now, createdAt := now, recovered := false }
  if (alookup roomId M.rooms).isSome then
    ({ success := false, error := some "Room already exists" }, M)
  else
    ({ success := true, hasPassword := some (pwTruthy pw), startTime := some now },
     { M with rooms := aset roomId roomData M.rooms })

/-- `createRoom`: one availability check, then a single backend. -/
def createRoom (avail : Bool) (now : Nat) (roomId : String) (pw : Option String)
    (s : Store) : CreateResult × Store :=
  if avail then
    let p := createRoomRemote now roomId pw s.redis
    (p.1, { s with redis := p.2 })
  else
    let p := createRoomMemory now roomId pw s.memory
    (p.1, { s with memory := p.2 })

/-- The room hash written by the auto-recovery paths of `checkRoom` and
`joinRoom`: password-less, `recovered: 'true'`, fresh `startTime`. -/
def recoveredRoomData (now : Nat) : RoomData :=
  { password := "", hasPassword := "0", startTime := now, createdAt := now,
    recovered := true }

/-- `checkRoom`, remote branch (lines 77-117), including auto-recovery of a
room whose metadata hash is missing while its members hash is non-empty. -/
def checkRoomRemote (now : Nat) (roomId : String) (R : RedisState) :
    CheckResult × RedisState :=
  match alookup roomId R.rooms with
  | none =>
    let memberCount := R.hlenMembers roomId
    if memberCount > 0 then
      let R1 := ((R.hsetRoom roomId (recoveredRoomData now)).expireRoom roomId
        ROOM_TTL).saddActive roomId
      ({ roomExists := true, hasPassword := some false,
         userCount := some memberCount, startTime := some now }, R1)
    else
      ({ roomExists := false }, R)
  | some d =>
    ({ roomExists := true, hasPassword := some (d.hasPassword = "1"),
       userCount := some (R.hlenMembers roomId), startTime := some d.startTime }, R)

/-- `checkRoom`, memory fallback branch (lines 62-75). -/
def checkRoomMemory (roomId : String) (M : MemoryState) : CheckResult :=
  match alookup roomId M.rooms with
  | none => { roomExists := false }
  | some d =>
    { roomExists := true, hasPassword := some (d.hasPassword = "1"),
      userCount := some ((alookup roomId M.members).getD []).length,
      startTime := some d.startTime }

/-- `checkRoom`: one availability check, then a single backend (the memory
branch performs no writes). -/
def checkRoom (avail : Bool) (now : Nat) (roomId : String) (s : Store) :
    CheckResult × Store :=
  if avail then
    let p := checkRoomRemote now roomId s.redis
    (p.1, { s with redis := p.2 })
  else
    (checkRoomMemory roomId s.memory, s)

/-- Shared tail of the remote `joinRoom` (lines 195-227): password gate,
member upsert + TTL, session write + TTL, then the full membership list. -/
def joinRoomRemoteGo (now : Nat) (roomId socketId : String) (pw : Option String)
    (currentUser : Member) (d : RoomData) (R : RedisState) :
    JoinResult × RedisState :=
  if d.hasPassword = "1" && pwMismatch d.password pw then
    ({ success := false, error := some "Invalid password",
       requiresPassword := some true }, R)
  else
    let R1 := (R.hsetMember roomId socketId currentUser).expireMembers roomId ROOM_TTL
    let R2 := (R1.hsetUser socketId
      { roomId := roomId, displayName := currentUser.displayName,
        joinedAt := now }).expireUser socketId ROOM_TTL
    let users := ((alookup roomId R2.members).getD []).map Prod.snd
    ({ success := true, users := some users, currentUser := some currentUser,
       startTime := some d.startTime }, R2)

/-- `joinRoom`, remote branch (lines 167-228), including auto-recovery of an
orphaned room before the password gate. -/
def joinRoomRemote (now : Nat) (roomId socketId : String) (pw : Option String)
    (displayName : Option String) (R : RedisState) : JoinResult × RedisState :=
  let currentUser : Member := { id := socketId, displayName := defaultName socketId displayName }
  match alookup roomId R.rooms with
  | none =>
    if R.hlenMembers roomId > 0 then
      let d := recoveredRoomData now
      let R1 := ((R.hsetRoom roomId d).expireRoom roomId ROOM_TTL).saddActive roomId
      joinRoomRemoteGo now roomId socketId pw currentUser d R1
    else
      ({ success := false, error := some "Room does not exist" }, R)
  | some d => joinRoomRemoteGo now roomId socketId pw currentUser d R

/-- `joinRoom`, memory fallback branch (lines 131-165): auto-creates a
missing room with the caller's password, then the same gate and upsert. -/
def joinRoomMemory (now : Nat) (roomId socketId : String) (pw : Option String)
    (displayName : Option String) (M : MemoryState) : JoinResult × MemoryState :=
  let userDisplayName := defaultName socketId displayName
  let currentUser : Member := { id := socketId, displayName := userDisplayName }
  let auto : RoomData × MemoryState :=
    match alookup roomId M.rooms with
    | some d => (d, M)
    | none =>
      let d : RoomData :=
        { password := pwOrEmpty pw, hasPassword := pwFlag pw,
          startTime := now, createdAt := now, recovered := false }
      (d, { M with rooms := aset roomId d M.rooms })
  let d := auto.1
  let M0 := auto.2
  if d.hasPassword = "1" && pwMismatch d.password pw then
    ({ success := false, error := some "Invalid password",
       requiresPassword := some true }, M0)
  else
    let members' := aset socketId currentUser ((alookup roomId M0.members).getD [])
    let M1 := { M0 with members := aset roomId members' M0.members }
    let sess : Session := { roomId := roomId, displayName := userDisplayName, joinedAt := now }
    let M2 := { M1 with users := aset socketId sess M1.users }
    ({ success := true, users := some (members'.map Prod.snd),
       currentUser := some currentUser, startTime := some d.startTime }, M2)

/-- `joinRoom`: one availability check, then a single backend. -/
def joinRoom (avail : Bool) (now : Nat) (roomId socketId : String)
    (pw : Option String) (displayName : Option String) (s : Store) :
    JoinResult × Store :=
  if avail then
    let p := joinRoomRemote now roomId socketId pw displayName s.redis
    (p.1, { s with redis := p.2 })
  else
    let p := joinRoomMemory now roomId socketId pw displayName s.memory
    (p.1, { s with memory := p.2 })

/-- `leaveRoom`, remote branch (lines 252-276): remove the member field,
delete the session key, then either purge all room keys (empty) or return
the remaining members.  No `EXPIRE` appears on this path. -/
def leaveRoomRemote (roomId socketId : String) (R : RedisState) :
    List Member × RedisState :=
  let R1 := (R.hdelMember roomId socketId).delUser socketId
  if R1.hlenMembers roomId = 0 then
    ([], (((R1.delRoom roomId).delMembers roomId).delChat roomId).sremActive roomId)
  else
    (((alookup roomId R1.members).getD []).map Prod.snd, R1)

/-- `leaveRoom`, memory fallback branch (lines 237-249): the room cleanup
runs only when a members map exists; `users.delete` is unconditional;
the returned list comes from the (already mutated) members map. -/
def leaveRoomMemory (roomId socketId : String) (M : MemoryState) :
    List Member × MemoryState :=
  match alookup roomId M.members with
  | none => ([], { M with users := aerase socketId M.users })
  | some cur =>
    let cur' := aerase socketId cur
    if cur'.isEmpty then
      ([], { M with rooms := aerase roomId M.rooms,
                    members := aerase roomId M.members,
                    chat := aerase roomId M.chat,
                    users := aerase socketId M.users })
    else
      (cur'.map Prod.snd,
       { M with members := aset roomId cur' M.members,
                users := aerase socketId M.users })

/-- `leaveRoom`: one availability check, then a single backend. -/
def leaveRoom (avail : Bool) (roomId socketId : String) (s : Store) :
    List Member × Store :=
  if avail then
    let p := leaveRoomRemote roomId socketId s.redis
    (p.1, { s with redis := p.2 })
  else
    let p := leaveRoomMemory roomId socketId s.memory
    (p.1, { s with memory := p.2 })

/-- `getRoomUsers` (lines 283-297): read-only. -/
def getRoomUsers (avail : Bool) (roomId : String) (s : Store) : List Member :=
  if avail then ((alookup roomId s.redis.members).getD []).map Prod.snd
  else ((alookup roomId s.memory.members).getD []).map Prod.snd

/-- `getUser` (lines 305-316): read-only. -/
def getUser (avail : Bool) (roomId socketId : String) (s : Store) : Option Member :=
  if avail then
    match alookup roomId s.redis.members with
    | none => none
    | some cur => alookup socketId cur
  else
    match alookup roomId s.memory.members with
    | none => none
    | some cur => alookup socketId cur

/-- `getUserSession` (lines 323-333): read-only. -/
def getUserSession (avail : Bool) (socketId : String) (s : Store) : Option Session :=
  if avail then alookup socketId s.redis.users
  else alookup socketId s.memory.users

/-- `getRoom` (lines 340-363): read-only; exposes the `recovered` marker. -/
def getRoom (avail : Bool) (roomId : String) (s : Store) : Option RoomInfo :=
  let conv : RoomData → RoomInfo := fun d =>
    { password := d.password, hasPassword := d.hasPassword = "1",
      startTime := d.startTime, createdAt := d.createdAt, recovered := d.recovered }
  if avail then (alookup roomId s.redis.rooms).map conv
  else (alookup roomId s.memory.rooms).map conv

/-- `saveChatMessage`, remote branch (lines 396-399): `LPUSH` then
`LTRIM 0 99` then `EXPIRE`. -/
def saveChatMessageRemote (roomId : String) (msg : String) (R : RedisState) :
    RedisState :=
  let newChat := (msg :: (alookup roomId R.chat).getD []).take 100
  { R with chat := aset roomId newChat R.chat,
           chatTTL := aset roomId ROOM_TTL R.chatTTL }

/-- `saveChatMessage`, memory fallback branch (lines 383-393): `unshift`
then a single `pop` when the length exceeds 100. -/
def saveChatMessageMemory (roomId : String) (msg : String) (M : MemoryState) :
    MemoryState :=
  let l1 := msg :: (alookup roomId M.chat).getD []
  let l2 := if l1.length > 100 then l1.dropLast else l1
  { M with chat := aset roomId l2 M.chat }

/-- `saveChatMessage`: one availability check, then a single backend. -/
def saveChatMessage (avail : Bool) (roomId : String) (msg : String) (s : Store) :
    Store :=
  if avail then { s with redis := saveChatMessageRemote roomId msg s.redis }
  else { s with memory := saveChatMessageMemory roomId msg s.memory }

/-- `getChatHistory`, remote branch (lines 414-416): `LRANGE 0 (limit-1)`
then reverse.  With `limit = 0` the stop index is `-1`, which Redis reads
as the last element, so the whole list is returned. -/
def getChatHistoryRemote (roomId : String) (limit : Nat) (R : RedisState) :
    List String :=
  let stored := (alookup roomId R.chat).getD []
  if limit = 0 then stored.reverse else (stored.take limit).reverse

/-- `getChatHistory`, memory fallback branch (lines 410-411):
`slice(0, limit)` then reverse. -/
def getChatHistoryMemory (roomId : String) (limit : Nat) (M : MemoryState) :
    List String :=
  ((alookup roomId M.chat).getD []).take limit |>.reverse

/-- `getChatHistory` (default limit 50 supplied by callers): read-only. -/
def getChatHistory (avail : Bool) (roomId : String) (limit : Nat) (s : Store) :
    List String :=
  if avail then getChatHistoryRemote roomId limit s.redis
  else getChatHistoryMemory roomId limit s.memory

/-- One inbound store mutation, tagged with the availability sample and the
clock value observed when it runs (reads are omitted: they do not change
the store). -/
inductive Op where
  | create (avail : Bool) (now : Nat) (roomId : String) (pw : Option String)
  | check (avail : Bool) (now : Nat) (roomId : String)
  | join (avail : Bool) (now : Nat) (roomId socketId : String)
      (pw : Option String) (displayName : Option String)
  | leave (avail : Bool) (roomId socketId : String)
  | save (avail : Bool) (roomId : String) (msg : String)
deriving Repr, DecidableEq

/-- State transition of a single operation. -/
def applyOp (s : Store) : Op → Store
  | .create avail now roomId pw => (createRoom avail now roomId pw s).2
  | .check avail now roomId => (checkRoom avail now roomId s).2
  | .join avail now roomId socketId pw dn => (joinRoom avail now roomId socketId pw dn s).2
  | .leave avail roomId socketId => (leaveRoom avail roomId socketId s).2
  | .save avail roomId msg => saveChatMessage avail roomId msg s

/-- Run a sequence of operations from a starting state. -/
def applyOps (ops : List Op) (s : Store) : Store :=
  ops.foldl applyOp s

/-- The members hash of `roomId` in the backend selected by `avail`. -/
def membersAt (avail : Bool) (roomId : String) (s : Store) :
    Option (List (String × Member)) :=
  if avail then alookup roomId s.redis.members else alookup roomId s.memory.members

/-- The room record of `roomId` in the backend selected by `avail`. -/
def roomsAt (avail : Bool) (roomId : String) (s : Store) : Option RoomData :=
  if avail then alookup roomId s.redis.rooms else alookup roomId s.memory.rooms

/-- The chat log of `roomId` in the backend selected by `avail`. -/
def chatAt (avail : Bool) (roomId : String) (s : Store) : Option (List String) :=
  if avail then alookup roomId s.redis.chat else alookup roomId s.memory.chat

/-- The session entry of `socketId` in the backend selected by `avail`. -/
def sessionAt (avail : Bool) (socketId : String) (s : Store) : Option Session :=
  if avail then alookup socketId s.redis.users else alookup socketId s.memory.users

/-- No key of the room exists in the selected backend and the member has
no session entry there (for the remote backend this covers the room hash,
members hash, chat list, their TTLs, the session hash and its TTL, and the
`active_rooms` membership; the local fallback has only the members map,
the users map — and possibly a room record, which `leaveRoom` never reads
when the members map entry is absent). -/
def roomAbsentEverywhere (avail : Bool) (roomId m : String) (s : Store) : Prop :=
  match avail with
  | true =>
    alookup roomId s.redis.rooms = none ∧ alookup roomId s.redis.roomsTTL = none
    ∧ alookup roomId s.redis.members = none ∧ alookup roomId s.redis.membersTTL = none
    ∧ alookup roomId s.redis.chat = none ∧ alookup roomId s.redis.chatTTL = none
    ∧ alookup m s.redis.users = none ∧ alookup m s.redis.usersTTL = none
    ∧ roomId ∉ s.redis.activeRooms
  | false =>
    alookup roomId s.memory.members = none ∧ alookup m s.memory.users = none

/-- Append a sequence of chat messages to one room, in arrival order. -/
def saveSeq (avail : Bool) (roomId : String) (msgs : List String) (s : Store) : Store :=
  msgs.foldl (fun acc msg => saveChatMessage avail roomId msg acc) s

/-- The stored (newest-first) chat list of a room in the selected backend. -/
def chatListAt (avail : Bool) (roomId : String) (s : Store) : List String :=
  if avail then (alookup roomId s.redis.chat).getD []
  else (alookup roomId s.memory.chat).getD []

/-- A remote-backend store with one room `r` holding members `m1`, `m2`
(members-key TTL already decayed to 5 seconds), a session for `m1`, and a
stale session for `m3` pointing at another room `rA`. -/
def twoMemberStore : Store :=
  ⟨⟨[("r", ⟨"", "0", 1, 1, false⟩)], [("r", 86400)],
    [("r", [("m1", ⟨"m1", "Alice"⟩), ("m2", ⟨"m2", "Bob"⟩)])], [("r", 5)],
    [], [], [("m1", ⟨"r", "Alice", 1⟩), ("m3", ⟨"rA", "Carol", 1⟩)],
    [("m1", 86400), ("m3", 86400)], ["r"]⟩, emptyMemory⟩

/-- Every room hash present in the remote backend carries the 24-hour TTL
(the invariant that makes a zero-member remote room expiry-bounded). -/
def roomsTTLInv (R : RedisState) : Prop :=
  ∀ id, (alookup id R.rooms).isSome → alookup id R.roomsTTL = some ROOM_TTL

/-- An orphaned remote room: members survive while the room hash is gone. -/
def orphanStore : Store :=
  ⟨⟨[], [], [("r", [("m1", ⟨"m1", "Alice"⟩)])], [("r", 5)], [], [], [], [], []⟩,
   emptyMemory⟩

/-- A remote room `r` with exactly one member, its chat log and session. -/
def lastMemberStore : Store :=
  ⟨⟨[("r", ⟨"", "0", 1, 1, false⟩)], [("r", 86400)],
    [("r", [("m1", ⟨"m1", "Alice"⟩)])], [("r", 86400)],
    [("r", ["x"])], [("r", 86400)],
    [("m1", ⟨"r", "Alice", 1⟩)], [("m1", 86400)], ["r"]⟩, emptyMemory⟩

/-! ### Association-list lemmas -/

@[simp] theorem alookup_nil (k : String) : alookup k ([] : List (String × α)) = none := rfl

@[simp] theorem alookup_cons (k k' : String) (v : α) (t : List (String × α)) :
    alookup k ((k', v) :: t) = if k' = k then some v else alookup k t := rfl

@[simp] theorem alookup_aset_self (k : String) (v : α) (l : List (String × α)) :
    alookup k (aset k v l) = some v := by
  induction l with
  | nil => simp [aset]
  | cons p t ih =>
    obtain ⟨k', v'⟩ := p
    by_cases hk : k' = k
    · simp [aset, hk]
    · simp [aset, hk, ih]

theorem alookup_aset_ne (k k' : String) (hk : k' ≠ k) (v : α) (l : List (String × α)) :
    alookup k' (aset k v l) = alookup k' l := by
  induction l with
  | nil => simp [aset, hk, Ne.symm hk]
  | cons p t ih =>
    obtain ⟨k₀, v₀⟩ := p
    by_cases h0 : k₀ = k
    · subst h0
      simp [aset, Ne.symm hk]
    · simp [aset, h0, ih]

@[simp] theorem aerase_nil (k : String) : aerase k ([] : List (String × α)) = [] := rfl

@[simp] theorem alookup_aerase_self (k : String) (l : List (String × α)) :
    alookup k (aerase k l) = none := by
  induction l with
  | nil => simp [aerase]
  | cons p t ih =>
    obtain ⟨k₀, v₀⟩ := p
    by_cases h0 : k₀ = k
    · simpa [aerase, h0] using ih
    · simpa [aerase, h0] using ih

theorem alookup_aerase_ne (k k' : String) (hk : k' ≠ k) (l : List (String × α)) :
    alookup k' (aerase k l) = alookup k' l := by
  induction l with
  | nil => simp [aerase]
  | cons p t ih =>
    obtain ⟨k₀, v₀⟩ := p
    by_cases h0 : k₀ = k
    · subst h0
      simpa [aerase, Ne.symm hk] using ih
    · simp [aerase] at ih
      simp [aerase, h0, ih]

theorem aerase_of_alookup_none (k : String) (l : List (String × α))
    (h : alookup k l = none) : aerase k l = l := by
  induction l with
  | nil => simp [aerase]
  | cons p t ih =>
    obtain ⟨k₀, v₀⟩ := p
    by_cases h0 : k₀ = k
    · simp [h0] at h
    · simp [aerase, h0] at ih ⊢
      exact ih (by simpa [h0] using h)

/-! ### Projection lemmas for the conditional Redis helpers -/

@[simp] theorem saddActive_rooms (R : RedisState) (r : String) :
    (R.saddActive r).rooms = R.rooms := by
  unfold RedisState.saddActive; split <;> rfl

@[simp] theorem saddActive_roomsTTL (R : RedisState) (r : String) :
    (R.saddActive r).roomsTTL = R.roomsTTL := by
  unfold RedisState.saddActive; split <;> rfl

@[simp] theorem saddActive_members (R : RedisState) (r : String) :
    (R.saddActive r).members = R.members := by
  unfold RedisState.saddActive; split <;> rfl

@[simp] theorem saddActive_membersTTL (R : RedisState) (r : String) :
    (R.saddActive r).membersTTL = R.membersTTL := by
  unfold RedisState.saddActive; split <;> rfl

@[simp] theorem saddActive_chat (R : RedisState) (r : String) :
    (R.saddActive r).chat = R.chat := by
  unfold RedisState.saddActive; split <;> rfl

@[simp] theorem saddActive_chatTTL (R : RedisState) (r : String) :
    (R.saddActive r).chatTTL = R.chatTTL := by
  unfold RedisState.saddActive; split <;> rfl

@[simp] theorem saddActive_users (R : RedisState) (r : String) :
    (R.saddActive r).users = R.users := by
  unfold RedisState.saddActive; split <;> rfl

@[simp] theorem saddActive_usersTTL (R : RedisState) (r : String) :
    (R.saddActive r).usersTTL = R.usersTTL := by
  unfold RedisState.saddActive; split <;> rfl

theorem saddActive_mem_activeRooms (R : RedisState) (r : String) :
    r ∈ (R.saddActive r).activeRooms := by
  unfold RedisState.saddActive
  split
  · assumption
  · simp

theorem saddActive_of_mem (R : RedisState) (r : String) (h : r ∈ R.activeRooms) :
    R.saddActive r = R := by
  unfold RedisState.saddActive; simp [h]

@[simp] theorem expireRoom_rooms (R : RedisState) (r : String) (t : Nat) :
    (R.expireRoom r t).rooms = R.rooms := by
  unfold RedisState.expireRoom; split <;> rfl

@[simp] theorem expireRoom_members (R : RedisState) (r : String) (t : Nat) :
    (R.expireRoom r t).members = R.members := by
  unfold RedisState.expireRoom; split <;> rfl

@[simp] theorem expireRoom_membersTTL (R : RedisState) (r : String) (t : Nat) :
    (R.expireRoom r t).membersTTL = R.membersTTL := by
  unfold RedisState.expireRoom; split <;> rfl

@[simp] theorem expireRoom_chat (R : RedisState) (r : String) (t : Nat) :
    (R.expireRoom r t).chat = R.chat := by
  unfold RedisState.expireRoom; split <;> rfl

@[simp] theorem expireRoom_chatTTL (R : RedisState) (r : String) (t : Nat) :
    (R.expireRoom r t).chatTTL = R.chatTTL := by
  unfold RedisState.expireRoom; split <;> rfl

@[simp] theorem expireRoom_users (R : RedisState) (r : String) (t : Nat) :
    (R.expireRoom r t).users = R.users := by
  unfold RedisState.expireRoom; split <;> rfl

@[simp] theorem expireRoom_usersTTL (R : RedisState) (r : String) (t : Nat) :
    (R.expireRoom r t).usersTTL = R.usersTTL := by
  unfold RedisState.expireRoom; split <;> rfl

@[simp] theorem expireRoom_activeRooms (R : RedisState) (r : String) (t : Nat) :
    (R.expireRoom r t).activeRooms = R.activeRooms := by
  unfold RedisState.expireRoom; split <;> rfl

theorem expireRoom_roomsTTL_of_isSome (R : RedisState) (r : String) (t : Nat)
    (h : (alookup r R.rooms).isSome) :
    (R.expireRoom r t).roomsTTL = aset r t R.roomsTTL := by
  unfold RedisState.expireRoom; simp [h]

@[simp] theorem expireMembers_rooms (R : RedisState) (r : String) (t : Nat) :
    (R.expireMembers r t).rooms = R.rooms := by
  unfold RedisState.expireMembers; split <;> rfl

@[simp] theorem expireMembers_roomsTTL (R : RedisState) (r : String) (t : Nat) :
    (R.expireMembers r t).roomsTTL = R.roomsTTL := by
  unfold RedisState.expireMembers; split <;> rfl

@[simp] theorem expireMembers_members (R : RedisState) (r : String) (t : Nat) :
    (R.expireMembers r t).members = R.members := by
  unfold RedisState.expireMembers; split <;> rfl

@[simp] theorem expireMembers_chat (R : RedisState) (r : String) (t : Nat) :
    (R.expireMembers r t).chat = R.chat := by
  unfold RedisState.expireMembers; split <;> rfl

@[simp] theorem expireMembers_chatTTL (R : RedisState) (r : String) (t : Nat) :
    (R.expireMembers r t).chatTTL = R.chatTTL := by
  unfold RedisState.expireMembers; split <;> rfl

@[simp] theorem expireMembers_users (R : RedisState) (r : String) (t : Nat) :
    (R.expireMembers r t).users = R.users := by
  unfold RedisState.expireMembers; split <;> rfl

@[simp] theorem expireMembers_usersTTL (R : RedisState) (r : String) (t : Nat) :
    (R.expireMembers r t).usersTTL = R.usersTTL := by
  unfold RedisState.expireMembers; split <;> rfl

@[simp] theorem expireMembers_activeRooms (R : RedisState) (r : String) (t : Nat) :
    (R.expireMembers r t).activeRooms = R.activeRooms := by
  unfold RedisState.expireMembers; split <;> rfl

theorem expireMembers_membersTTL_of_isSome (R : RedisState) (r : String) (t : Nat)
    (h : (alookup r R.members).isSome) :
    (R.expireMembers r t).membersTTL = aset r t R.membersTTL := by
  unfold RedisState.expireMembers; simp [h]

@[simp] theorem expireUser_rooms (R : RedisState) (u : String) (t : Nat) :
    (R.expireUser u t).rooms = R.rooms := by
  unfold RedisState.expireUser; split <;> rfl

@[simp] theorem expireUser_roomsTTL (R : RedisState) (u : String) (t : Nat) :
    (R.expireUser u t).roomsTTL = R.roomsTTL := by
  unfold RedisState.expireUser; split <;> rfl

@[simp] theorem expireUser_members (R : RedisState) (u : String) (t : Nat) :
    (R.expireUser u t).members = R.members := by
  unfold RedisState.expireUser; split <;> rfl

@[simp] theorem expireUser_membersTTL (R : RedisState) (u : String) (t : Nat) :
    (R.expireUser u t).membersTTL = R.membersTTL := by
  unfold RedisState.expireUser; split <;> rfl

@[simp] theorem expireUser_chat (R : RedisState) (u : String) (t : Nat) :
    (R.expireUser u t).chat = R.chat := by
  unfold RedisState.expireUser; split <;> rfl

@[simp] theorem expireUser_chatTTL (R : RedisState) (u : String) (t : Nat) :
    (R.expireUser u t).chatTTL = R.chatTTL := by
  unfold RedisState.expireUser; split <;> rfl

@[simp] theorem expireUser_users (R : RedisState) (u : String) (t : Nat) :
    (R.expireUser u t).users = R.users := by
  unfold RedisState.expireUser; split <;> rfl

@[simp] theorem expireUser_activeRooms (R : RedisState) (u : String) (t : Nat) :
    (R.expireUser u t).activeRooms = R.activeRooms := by
  unfold RedisState.expireUser; split <;> rfl

theorem expireUser_usersTTL_of_isSome (R : RedisState) (u : String) (t : Nat)
    (h : (alookup u R.users).isSome) :
    (R.expireUser u t).usersTTL = aset u t R.usersTTL := by
  unfold RedisState.expireUser; simp [h]

/-! ### Claim theorems -/

/-- `HDEL` of the only member removes the members key and its TTL. -/
theorem hdelMember_last (R : RedisState) (roomId m : String) (u : Member)
    (h : alookup roomId R.members = some [(m, u)]) :
    R.hdelMember roomId m = { R with members := aerase roomId R.members,
                                     membersTTL := aerase roomId R.membersTTL } := by
  unfold RedisState.hdelMember
  rw [h]
  simp [aerase]

/-- Remote `leaveRoom` of the last member purges the room record, the
members key, the chat key, the session, and the active-rooms entry. -/
theorem leaveRoomRemote_last (R : RedisState) (roomId m : String) (u : Member)
    (h : alookup roomId R.members = some [(m, u)]) :
    leaveRoomRemote roomId m R =
      ([], ⟨aerase roomId R.rooms, aerase roomId R.roomsTTL,
            aerase roomId (aerase roomId R.members),
            aerase roomId (aerase roomId R.membersTTL),
            aerase roomId R.chat, aerase roomId R.chatTTL,
            aerase m R.users, aerase m R.usersTTL,
            R.activeRooms.filter (fun x => !(x = roomId))⟩) := by
  unfold leaveRoomRemote
  rw [hdelMember_last R roomId m u h]
  simp [RedisState.delUser, RedisState.hlenMembers, RedisState.delRoom,
    RedisState.delMembers, RedisState.delChat, RedisState.sremActive]

/-- Memory `leaveRoom` of the last member deletes the room, members and
chat entries and the member's session. -/
theorem leaveRoomMemory_last (M : MemoryState) (roomId m : String) (u : Member)
    (h : alookup roomId M.members = some [(m, u)]) :
    leaveRoomMemory roomId m M =
      ([], ⟨aerase roomId M.rooms, aerase roomId M.members,
            aerase m M.users, aerase roomId M.chat⟩) := by
  unfold leaveRoomMemory
  rw [h]
  simp [aerase]

/-- C3: removing the last remaining member with `leaveRoom` deletes the
room record, the membership set and the chat log in the active backend;
the call returns the empty list, a subsequent `checkRoom` answers
`exists=false` without touching the store, and `getChatHistory` answers
the empty sequence — no read observes an empty-but-existing room. -/
theorem C3_last_leave_purges_room (avail : Bool) (now limit : Nat)
    (roomId m : String) (u : Member) (s : Store)
    (h : membersAt avail roomId s = some [(m, u)]) :
    (leaveRoom avail roomId m s).1 = []
    ∧ roomsAt avail roomId (leaveRoom avail roomId m s).2 = none
    ∧ membersAt avail roomId (leaveRoom avail roomId m s).2 = none
    ∧ chatAt avail roomId (leaveRoom avail roomId m s).2 = none
    ∧ checkRoom avail now roomId (leaveRoom avail roomId m s).2
        = ({ roomExists := false }, (leaveRoom avail roomId m s).2)
    ∧ getChatHistory avail roomId limit (leaveRoom avail roomId m s).2 = [] := by
  cases avail with
  | false =>
    simp only [membersAt, Bool.false_eq_true, if_false] at h
    have hlv : leaveRoom false roomId m s
        = ([], { s with memory := ⟨aerase roomId s.memory.rooms,
            aerase roomId s.memory.members, aerase m s.memory.users,
            aerase roomId s.memory.chat⟩ }) := by
      simp [leaveRoom, leaveRoomMemory_last s.memory roomId m u h]
    rw [hlv]
    refine ⟨rfl, ?_, ?_, ?_, ?_, ?_⟩
    · simp [roomsAt]
    · simp [membersAt]
    · simp [chatAt]
    · simp [checkRoom, checkRoomMemory]
    · simp [getChatHistory, getChatHistoryMemory]
  | true =>
    simp only [membersAt, if_true] at h
    have hlv : leaveRoom true roomId m s
        = ([], { s with redis := ⟨aerase roomId s.redis.rooms,
            aerase roomId s.redis.roomsTTL,
            aerase roomId (aerase roomId s.redis.members),
            aerase roomId (aerase roomId s.redis.membersTTL),
            aerase roomId s.redis.chat, aerase roomId s.redis.chatTTL,
            aerase m s.redis.users, aerase m s.redis.usersTTL,
            s.redis.activeRooms.filter (fun x => !(x = roomId))⟩ }) := by
      simp [leaveRoom, leaveRoomRemote_last s.redis roomId m u h]
    rw [hlv]
    refine ⟨rfl, ?_, ?_, ?_, ?_, ?_⟩
    · simp [roomsAt]
    · simp [membersAt]
    · simp [chatAt]
    · simp [checkRoom, checkRoomRemote, RedisState.hlenMembers]
    · simp [getChatHistory, getChatHistoryRemote]

/-- Unfolding of the remote `checkRoom` on an orphaned room: metadata hash
missing, members hash non-empty. -/
theorem checkRoomRemote_orphan (now : Nat) (roomId : String) (R : RedisState)
    (hroom : alookup roomId R.rooms = none)
    (hmem : 0 < R.hlenMembers roomId) :
    checkRoomRemote now roomId R =
      ({ roomExists := true, hasPassword := some false,
         userCount := some (R.hlenMembers roomId), startTime := some now },
       ((R.hsetRoom roomId (recoveredRoomData now)).expireRoom roomId
         ROOM_TTL).saddActive roomId) := by
  unfold checkRoomRemote
  rw [hroom]
  simp [hmem]

/-- C1: when the room metadata hash is absent in the remote backend while
the member hash is non-empty, `checkRoom` returns
`exists=true, hasPassword=false, userCount=<member count>` with a fresh
`startTime`, writes a password-less room record with `recovered=true` and a
fresh TTL, after which `getRoom` reports `recovered=true`; a repeated
`checkRoom` returns the same answer and changes nothing, and if the
metadata expires again a repeated `checkRoom` at the same clock rebuilds
exactly the same record and TTL, touching no other key. -/
theorem C1_checkRoom_auto_recovery (now : Nat) (roomId : String) (s : Store)
    (hroom : alookup roomId s.redis.rooms = none)
    (hmem : 0 < s.redis.hlenMembers roomId) :
    (checkRoom true now roomId s).1
        = { roomExists := true, hasPassword := some false,
            userCount := some (s.redis.hlenMembers roomId), startTime := some now }
    ∧ alookup roomId (checkRoom true now roomId s).2.redis.rooms
        = some (recoveredRoomData now)
    ∧ alookup roomId (checkRoom true now roomId s).2.redis.roomsTTL = some ROOM_TTL
    ∧ getRoom true roomId (checkRoom true now roomId s).2
        = some { password := "", hasPassword := false, startTime := now,
                 createdAt := now, recovered := true }
    ∧ checkRoom true now roomId (checkRoom true now roomId s).2
        = ((checkRoom true now roomId s).1, (checkRoom true now roomId s).2)
    ∧ ((checkRoom true now roomId
          { (checkRoom true now roomId s).2 with
            redis := (checkRoom true now roomId s).2.redis.delRoom roomId }).1
        = (checkRoom true now roomId s).1
      ∧ (checkRoom true now roomId
          { (checkRoom true now roomId s).2 with
            redis := (checkRoom true now roomId s).2.redis.delRoom roomId }).2.redis.members
        = (checkRoom true now roomId s).2.redis.members
      ∧ (checkRoom true now roomId
          { (checkRoom true now roomId s).2 with
            redis := (checkRoom true now roomId s).2.redis.delRoom roomId }).2.redis.users
        = (checkRoom true now roomId s).2.redis.users
      ∧ (checkRoom true now roomId
          { (checkRoom true now roomId s).2 with
            redis := (checkRoom true now roomId s).2.redis.delRoom roomId }).2.redis.chat
        = (checkRoom true now roomId s).2.redis.chat
      ∧ (checkRoom true now roomId
          { (checkRoom true now roomId s).2 with
            redis := (checkRoom true now roomId s).2.redis.delRoom roomId }).2.redis.activeRooms
        = (checkRoom true now roomId s).2.redis.activeRooms
      ∧ alookup roomId (checkRoom true now roomId
          { (checkRoom true now roomId s).2 with
            redis := (checkRoom true now roomId s).2.redis.delRoom roomId }).2.redis.rooms
        = some (recoveredRoomData now)
      ∧ alookup roomId (checkRoom true now roomId
          { (checkRoom true now roomId s).2 with
            redis := (checkRoom true now roomId s).2.redis.delRoom roomId }).2.redis.roomsTTL
        = some ROOM_TTL) := by
  have hrem := checkRoomRemote_orphan now roomId s.redis hroom hmem
  set R1 := ((s.redis.hsetRoom roomId (recoveredRoomData now)).expireRoom roomId
    ROOM_TTL).saddActive roomId with hR1
  have hck : checkRoom true now roomId s
      = ({ roomExists := true, hasPassword := some false,
           userCount := some (s.redis.hlenMembers roomId), startTime := some now },
         { s with redis := R1 }) := by
    simp [checkRoom, hrem]
  rw [hck]
  have hrooms1 : alookup roomId R1.rooms = some (recoveredRoomData now) := by
    rw [hR1]; simp [RedisState.hsetRoom]
  have hmembers1 : R1.members = s.redis.members := by
    rw [hR1]; simp [RedisState.hsetRoom]
  have httl1 : alookup roomId R1.roomsTTL = some ROOM_TTL := by
    rw [hR1, saddActive_roomsTTL, expireRoom_roomsTTL_of_isSome]
    · simp
    · simp [RedisState.hsetRoom]
  refine ⟨rfl, hrooms1, httl1, ?_, ?_, ?_⟩
  · simp [getRoom, hrooms1, recoveredRoomData]
  · simp [checkRoom, checkRoomRemote, hrooms1, RedisState.hlenMembers, hmembers1,
      recoveredRoomData]
  · set R2 := R1.delRoom roomId with hR2
    have hroom2 : alookup roomId R2.rooms = none := by
      rw [hR2]; simp [RedisState.delRoom]
    have hmem2 : 0 < R2.hlenMembers roomId := by
      rw [hR2]
      simpa [RedisState.hlenMembers, RedisState.delRoom, hmembers1] using hmem
    have hrem2 := checkRoomRemote_orphan now roomId R2 hroom2 hmem2
    set R3 := ((R2.hsetRoom roomId (recoveredRoomData now)).expireRoom roomId
      ROOM_TTL).saddActive roomId with hR3
    have hcnt : R2.hlenMembers roomId = s.redis.hlenMembers roomId := by
      rw [hR2]
      simp [RedisState.hlenMembers, RedisState.delRoom, hmembers1]
    have hck2 : checkRoom true now roomId { redis := R2, memory := s.memory }
        = ({ roomExists := true, hasPassword := some false,
             userCount := some (s.redis.hlenMembers roomId), startTime := some now },
           { redis := R3, memory := s.memory }) := by
      simp [checkRoom, hrem2, hcnt]
    rw [hck2]
    have hmem3 : R2.members = s.redis.members := by
      rw [hR2]; simp [RedisState.delRoom, hmembers1]
    have husers2 : R2.users = R1.users := by
      rw [hR2]; simp [RedisState.delRoom]
    have hchat2 : R2.chat = R1.chat := by
      rw [hR2]; simp [RedisState.delRoom]
    have hactive2 : R2.activeRooms = R1.activeRooms := by
      rw [hR2]; simp [RedisState.delRoom]
    have hactmem : roomId ∈ (R2.hsetRoom roomId (recoveredRoomData now)).activeRooms := by
      rw [hR2, hR1]
      simp [RedisState.hsetRoom, RedisState.delRoom]
      exact saddActive_mem_activeRooms _ roomId
    refine ⟨rfl, ?_, ?_, ?_, ?_, ?_, ?_⟩
    · rw [hR3]; simp [RedisState.hsetRoom, hmem3, hmembers1]
    · rw [hR3]; simp [RedisState.hsetRoom, husers2]
    · rw [hR3]; simp [RedisState.hsetRoom, hchat2]
    · rw [hR3]
      have : ((R2.hsetRoom roomId (recoveredRoomData now)).expireRoom roomId
          ROOM_TTL).saddActive roomId
          = (R2.hsetRoom roomId (recoveredRoomData now)).expireRoom roomId ROOM_TTL := by
        apply saddActive_of_mem
        simpa using hactmem
      rw [this]
      simp [RedisState.hsetRoom, hactive2]
    · rw [hR3]; simp [RedisState.hsetRoom]
    · rw [hR3, saddActive_roomsTTL, expireRoom_roomsTTL_of_isSome]
      · simp
      · simp [RedisState.hsetRoom]

/-- C4: after `createRoom(r, p)` with a non-empty password `p` on a fresh
room id, `joinRoom` with exactly `p` succeeds while `joinRoom` with any
`w ≠ p` fails with error `Invalid password` and `requiresPassword=true`
(exact string comparison); a room created with no password (`null` or the
empty string) never rejects a join for a password reason, whatever
password the joiner supplies. -/
theorem C4_password_gate (avail : Bool) (now now2 : Nat) (roomId m : String)
    (dn : Option String) (p w : String) (s : Store)
    (habs : roomsAt avail roomId s = none)
    (hp : p ≠ "") (hw : w ≠ p) :
    (createRoom avail now roomId (some p) s).1.success = true
    ∧ (joinRoom avail now2 roomId m (some p) dn
        (createRoom avail now roomId (some p) s).2).1.success = true
    ∧ (joinRoom avail now2 roomId m (some w) dn
        (createRoom avail now roomId (some p) s).2).1
        = { success := false, error := some "Invalid password",
            requiresPassword := some true }
    ∧ (∀ pw2 : Option String,
        (joinRoom avail now2 roomId m pw2 dn
          (createRoom avail now roomId none s).2).1.success = true)
    ∧ (∀ pw2 : Option String,
        (joinRoom avail now2 roomId m pw2 dn
          (createRoom avail now roomId (some "") s).2).1.success = true) := by
  have hpw : p ≠ w := fun hc => hw hc.symm
  cases avail with
  | false =>
    simp only [roomsAt, Bool.false_eq_true, if_false] at habs
    refine ⟨?_, ?_, ?_, ?_, ?_⟩
    · simp [createRoom, createRoomMemory, habs]
    · simp [createRoom, createRoomMemory, habs, joinRoom, joinRoomMemory,
        pwFlag, pwTruthy, pwOrEmpty, pwMismatch, hp]
    · simp [createRoom, createRoomMemory, habs, joinRoom, joinRoomMemory,
        pwFlag, pwTruthy, pwOrEmpty, pwMismatch, hp, hpw]
    · intro pw2
      simp [createRoom, createRoomMemory, habs, joinRoom, joinRoomMemory,
        pwFlag, pwTruthy, pwOrEmpty]
    · intro pw2
      simp [createRoom, createRoomMemory, habs, joinRoom, joinRoomMemory,
        pwFlag, pwTruthy, pwOrEmpty]
  | true =>
    simp only [roomsAt, if_true] at habs
    refine ⟨?_, ?_, ?_, ?_, ?_⟩
    · simp [createRoom, createRoomRemote, habs]
    · simp [createRoom, createRoomRemote, habs, joinRoom, joinRoomRemote,
        joinRoomRemoteGo, RedisState.hsetRoom, pwFlag, pwTruthy, pwOrEmpty,
        pwMismatch, hp]
    · simp [createRoom, createRoomRemote, habs, joinRoom, joinRoomRemote,
        joinRoomRemoteGo, RedisState.hsetRoom, pwFlag, pwTruthy, pwOrEmpty,
        pwMismatch, hp, hpw]
    · intro pw2
      simp [createRoom, createRoomRemote, habs, joinRoom, joinRoomRemote,
        joinRoomRemoteGo, RedisState.hsetRoom, pwFlag, pwTruthy, pwOrEmpty]
    · intro pw2
      simp [createRoom, createRoomRemote, habs, joinRoom, joinRoomRemote,
        joinRoomRemoteGo, RedisState.hsetRoom, pwFlag, pwTruthy, pwOrEmpty]

/-- The password gate never fires against the room record that the same
call has just auto-created from the caller's own password. -/
theorem autocreate_gate_false (pw : Option String) :
    ((pwFlag pw = "1" : Bool) && pwMismatch (pwOrEmpty pw) pw) = false := by
  cases pw with
  | none => simp [pwFlag, pwTruthy, pwMismatch]
  | some x =>
    by_cases hx : x = "" <;> simp [pwFlag, pwTruthy, pwOrEmpty, pwMismatch, hx]

/-- Memory-fallback `joinRoom` against an absent room: the room is created
from the caller's password and the join succeeds. -/
theorem joinRoomMemory_autocreate (now : Nat) (roomId m : String)
    (pw dn : Option String) (M : MemoryState)
    (habs : alookup roomId M.rooms = none) :
    joinRoomMemory now roomId m pw dn M =
      ({ success := true,
         users := some ((aset m ⟨m, defaultName m dn⟩
           ((alookup roomId M.members).getD [])).map Prod.snd),
         currentUser := some ⟨m, defaultName m dn⟩,
         startTime := some now },
       { rooms := aset roomId ⟨pwOrEmpty pw, pwFlag pw, now, now, false⟩ M.rooms,
         members := aset roomId (aset m ⟨m, defaultName m dn⟩
           ((alookup roomId M.members).getD [])) M.members,
         users := aset m ⟨roomId, defaultName m dn, now⟩ M.users,
         chat := M.chat }) := by
  unfold joinRoomMemory
  rw [habs]
  simp [autocreate_gate_false]

/-- C9: with the remote backend unavailable, `joinRoom` against a room id
absent from the local fallback never fails with `Room does not exist`: it
auto-creates the room, adopting the caller-supplied password as the room
password (the first joiner silently sets the password gate), and succeeds
for that caller; afterwards a joiner supplying a password different from
the adopted non-empty password is rejected. -/
theorem C9_fallback_join_autocreates (now : Nat) (roomId m : String)
    (pw dn : Option String) (s : Store)
    (habs : alookup roomId s.memory.rooms = none) :
    (joinRoom false now roomId m pw dn s).1.success = true
    ∧ (joinRoom false now roomId m pw dn s).1.error = none
    ∧ alookup roomId (joinRoom false now roomId m pw dn s).2.memory.rooms
        = some { password := pwOrEmpty pw, hasPassword := pwFlag pw,
                 startTime := now, createdAt := now, recovered := false }
    ∧ (∀ (now2 : Nat) (m2 : String) (dn2 : Option String) (p w : String),
        pw = some p → p ≠ "" → w ≠ p →
        (joinRoom false now2 roomId m2 (some w) dn2
          (joinRoom false now roomId m pw dn s).2).1
          = { success := false, error := some "Invalid password",
              requiresPassword := some true }) := by
  have hj := joinRoomMemory_autocreate now roomId m pw dn s.memory habs
  refine ⟨?_, ?_, ?_, ?_⟩
  · simp [joinRoom, hj]
  · simp [joinRoom, hj]
  · simp [joinRoom, hj]
  · intro now2 m2 dn2 p w hpw hp hw
    have hpw2 : p ≠ w := fun hc => hw hc.symm
    subst hpw
    have hmem2 : (joinRoom false now roomId m (some p) dn s).2.memory
        = { rooms := aset roomId ⟨p, "1", now, now, false⟩ s.memory.rooms,
            members := aset roomId (aset m ⟨m, defaultName m dn⟩
              ((alookup roomId s.memory.members).getD [])) s.memory.members,
            users := aset m ⟨roomId, defaultName m dn, now⟩ s.memory.users,
            chat := s.memory.chat } := by
      simp [joinRoom, hj, pwOrEmpty, pwFlag, pwTruthy, hp]
    have houter : joinRoom false now2 roomId m2 (some w) dn2
        (joinRoom false now roomId m (some p) dn s).2
        = ((joinRoomMemory now2 roomId m2 (some w) dn2
            (joinRoom false now roomId m (some p) dn s).2.memory).1,
           { (joinRoom false now roomId m (some p) dn s).2 with
             memory := (joinRoomMemory now2 roomId m2 (some w) dn2
               (joinRoom false now roomId m (some p) dn s).2.memory).2 }) := by
      simp [joinRoom]
    rw [houter, hmem2]
    simp [joinRoomMemory, pwMismatch, hpw2]

/-- Frame of the remote `leaveRoom`: keys of any other room are untouched
and the member's session key is gone. -/
theorem leaveRoomRemote_frame (R : RedisState) (B m A : String) (hAB : A ≠ B) :
    alookup A (leaveRoomRemote B m R).2.rooms = alookup A R.rooms
    ∧ alookup A (leaveRoomRemote B m R).2.members = alookup A R.members
    ∧ alookup A (leaveRoomRemote B m R).2.chat = alookup A R.chat
    ∧ alookup m (leaveRoomRemote B m R).2.users = none := by
  unfold leaveRoomRemote RedisState.hdelMember
  cases halo : alookup B R.members with
  | none =>
    simp [halo, RedisState.delUser, RedisState.hlenMembers, RedisState.delRoom,
      RedisState.delMembers, RedisState.delChat, RedisState.sremActive,
      alookup_aerase_ne B A hAB]
  | some cur =>
    by_cases hemp : (aerase m cur).isEmpty
    · simp [halo, hemp, RedisState.delUser, RedisState.hlenMembers,
        RedisState.delRoom, RedisState.delMembers, RedisState.delChat,
        RedisState.sremActive, alookup_aerase_ne B A hAB]
    · have hne : aerase m cur ≠ [] := by
        simpa [List.isEmpty_iff] using hemp
      simp [halo, hemp, hne, RedisState.delUser, RedisState.hlenMembers,
        alookup_aset_ne B A hAB, alookup_aerase_ne B A hAB]

/-- Frame of the memory-fallback `leaveRoom`: entries of any other room
are untouched and the member's session entry is gone. -/
theorem leaveRoomMemory_frame (M : MemoryState) (B m A : String) (hAB : A ≠ B) :
    alookup A (leaveRoomMemory B m M).2.rooms = alookup A M.rooms
    ∧ alookup A (leaveRoomMemory B m M).2.members = alookup A M.members
    ∧ alookup A (leaveRoomMemory B m M).2.chat = alookup A M.chat
    ∧ alookup m (leaveRoomMemory B m M).2.users = none := by
  unfold leaveRoomMemory
  cases halo : alookup B M.members with
  | none => simp [halo]
  | some cur =>
    by_cases hemp : (aerase m cur).isEmpty
    · simp [halo, hemp, alookup_aerase_ne B A hAB]
    · simp [halo, hemp, alookup_aset_ne B A hAB]

/-- C10: `leaveRoom(B, m)` deletes `m`'s session entry unconditionally —
even when `B` is not the room `A` that `m`'s session points to — so a
speculative leave against a wrong room id destroys the session mapping of
the room the member actually occupies, while the room record, membership
and chat log of room `A` are left unchanged. -/
theorem C10_speculative_leave_kills_session (avail : Bool) (A B m : String)
    (sess : Session) (s : Store)
    (hsess : sessionAt avail m s = some sess)
    (hA : sess.roomId = A) (hBA : B ≠ A) :
    sessionAt avail m (leaveRoom avail B m s).2 = none
    ∧ membersAt avail A (leaveRoom avail B m s).2 = membersAt avail A s
    ∧ roomsAt avail A (leaveRoom avail B m s).2 = roomsAt avail A s
    ∧ chatAt avail A (leaveRoom avail B m s).2 = chatAt avail A s := by
  have hAB : A ≠ B := fun hc => hBA hc.symm
  cases avail with
  | false =>
    have hfr := leaveRoomMemory_frame s.memory B m A hAB
    refine ⟨?_, ?_, ?_, ?_⟩
    · simp [sessionAt, leaveRoom, hfr.2.2.2]
    · simp [membersAt, leaveRoom, hfr.2.1]
    · simp [roomsAt, leaveRoom, hfr.1]
    · simp [chatAt, leaveRoom, hfr.2.2.1]
  | true =>
    have hfr := leaveRoomRemote_frame s.redis B m A hAB
    refine ⟨?_, ?_, ?_, ?_⟩
    · simp [sessionAt, leaveRoom, hfr.2.2.2]
    · simp [membersAt, leaveRoom, hfr.2.1]
    · simp [roomsAt, leaveRoom, hfr.1]
    · simp [chatAt, leaveRoom, hfr.2.2.1]

/-- Remote `leaveRoom` is a complete no-op when no key of the room exists
and the member has no session. -/
theorem leaveRoomRemote_noop (R : RedisState) (roomId m : String)
    (h1 : alookup roomId R.rooms = none) (h2 : alookup roomId R.roomsTTL = none)
    (h3 : alookup roomId R.members = none) (h4 : alookup roomId R.membersTTL = none)
    (h5 : alookup roomId R.chat = none) (h6 : alookup roomId R.chatTTL = none)
    (h7 : alookup m R.users = none) (h8 : alookup m R.usersTTL = none)
    (h9 : roomId ∉ R.activeRooms) :
    leaveRoomRemote roomId m R = ([], R) := by
  have hfil : R.activeRooms.filter (fun x => !(x = roomId)) = R.activeRooms := by
    apply List.filter_eq_self.mpr
    intro a ha
    simp only [Bool.not_eq_true', decide_eq_false_iff_not]
    exact fun hc => h9 (hc ▸ ha)
  unfold leaveRoomRemote RedisState.hdelMember
  rw [h3]
  simp [RedisState.delUser, RedisState.hlenMembers, h3,
    aerase_of_alookup_none m R.users h7, aerase_of_alookup_none m R.usersTTL h8,
    RedisState.delRoom, RedisState.delMembers, RedisState.delChat,
    RedisState.sremActive, aerase_of_alookup_none roomId R.rooms h1,
    aerase_of_alookup_none roomId R.roomsTTL h2,
    aerase_of_alookup_none roomId R.members h3,
    aerase_of_alookup_none roomId R.membersTTL h4,
    aerase_of_alookup_none roomId R.chat h5,
    aerase_of_alookup_none roomId R.chatTTL h6, hfil]

/-- Memory `leaveRoom` is a complete no-op when the members entry is
absent and the member has no session. -/
theorem leaveRoomMemory_noop (M : MemoryState) (roomId m : String)
    (h3 : alookup roomId M.members = none) (h7 : alookup m M.users = none) :
    leaveRoomMemory roomId m M = ([], M) := by
  unfold leaveRoomMemory
  rw [h3]
  simp [aerase_of_alookup_none m M.users h7]

/-- C5 counterexample: with room `r` holding members `m1, m2` and `m3` not
among them, `leaveRoom("r","m3")` returns the two remaining members — not
the empty list — and changes the store: it destroys `m3`'s session. -/
theorem C5_counterexample :
    getUser true "r" "m3" twoMemberStore = none
    ∧ (leaveRoom true "r" "m3" twoMemberStore).1
        = [⟨"m1", "Alice"⟩, ⟨"m2", "Bob"⟩]
    ∧ (leaveRoom true "r" "m3" twoMemberStore).1 ≠ []
    ∧ (leaveRoom true "r" "m3" twoMemberStore).2 ≠ twoMemberStore
    ∧ sessionAt true "m3" twoMemberStore = some ⟨"rA", "Carol", 1⟩
    ∧ sessionAt true "m3" (leaveRoom true "r" "m3" twoMemberStore).2 = none := by
  decide

/-- C5 (amended): `leaveRoom` never errors; when the active backend's
member set for the room is absent or empty it returns the empty list; when
additionally no key of the room exists and the member has no session it is
a complete no-op; and immediately repeating `leaveRoom` for a member whose
first call removed the last member is an empty-list no-op.  (As stated the
claim is false: with the room held by other members the call returns the
remaining member list, and it always deletes the member's session.) -/
theorem C5_leave_noop_amended (avail : Bool) (roomId m : String) (s : Store) :
    ((membersAt avail roomId s = none ∨ membersAt avail roomId s = some []) →
      (leaveRoom avail roomId m s).1 = [])
    ∧ (roomAbsentEverywhere avail roomId m s → leaveRoom avail roomId m s = ([], s))
    ∧ (∀ u : Member, membersAt avail roomId s = some [(m, u)] →
        leaveRoom avail roomId m (leaveRoom avail roomId m s).2
          = ([], (leaveRoom avail roomId m s).2)) := by
  cases avail with
  | false =>
    refine ⟨?_, ?_, ?_⟩
    · rintro (hm | hm) <;>
        simp only [membersAt, Bool.false_eq_true, if_false] at hm <;>
        simp [leaveRoom, leaveRoomMemory, hm]
    · intro h
      obtain ⟨h3, h7⟩ := h
      simp [leaveRoom, leaveRoomMemory_noop s.memory roomId m h3 h7]
    · intro u hmem
      simp only [membersAt, Bool.false_eq_true, if_false] at hmem
      have hlv : leaveRoom false roomId m s
          = ([], { s with memory := ⟨aerase roomId s.memory.rooms,
              aerase roomId s.memory.members, aerase m s.memory.users,
              aerase roomId s.memory.chat⟩ }) := by
        simp [leaveRoom, leaveRoomMemory_last s.memory roomId m u hmem]
      rw [hlv]
      have hno := leaveRoomMemory_noop
        ⟨aerase roomId s.memory.rooms, aerase roomId s.memory.members,
         aerase m s.memory.users, aerase roomId s.memory.chat⟩ roomId m
        (by simp) (by simp)
      simp [leaveRoom, hno]
  | true =>
    refine ⟨?_, ?_, ?_⟩
    · rintro (hm | hm) <;>
        simp only [membersAt, if_true] at hm <;>
        simp [leaveRoom, leaveRoomRemote, RedisState.hdelMember, hm,
          RedisState.delUser, RedisState.hlenMembers]
    · intro h
      obtain ⟨h1, h2, h3, h4, h5, h6, h7, h8, h9⟩ := h
      simp [leaveRoom, leaveRoomRemote_noop s.redis roomId m h1 h2 h3 h4 h5 h6 h7 h8 h9]
    · intro u hmem
      simp only [membersAt, if_true] at hmem
      have hlv : leaveRoom true roomId m s
          = ([], { s with redis := ⟨aerase roomId s.redis.rooms,
              aerase roomId s.redis.roomsTTL,
              aerase roomId (aerase roomId s.redis.members),
              aerase roomId (aerase roomId s.redis.membersTTL),
              aerase roomId s.redis.chat, aerase roomId s.redis.chatTTL,
              aerase m s.redis.users, aerase m s.redis.usersTTL,
              s.redis.activeRooms.filter (fun x => !(x = roomId))⟩ }) := by
        simp [leaveRoom, leaveRoomRemote_last s.redis roomId m u hmem]
      rw [hlv]
      have hno := leaveRoomRemote_noop
        ⟨aerase roomId s.redis.rooms, aerase roomId s.redis.roomsTTL,
         aerase roomId (aerase roomId s.redis.members),
         aerase roomId (aerase roomId s.redis.membersTTL),
         aerase roomId s.redis.chat, aerase roomId s.redis.chatTTL,
         aerase m s.redis.users, aerase m s.redis.usersTTL,
         s.redis.activeRooms.filter (fun x => !(x = roomId))⟩ roomId m
        (by simp) (by simp) (by simp) (by simp) (by simp) (by simp)
        (by simp) (by simp) (by simp [List.mem_filter])
      simp [leaveRoom, hno]

/-- The join tail never touches the room hash. -/
theorem joinRoomRemoteGo_rooms (now : Nat) (roomId m : String) (pw : Option String)
    (cu : Member) (d : RoomData) (R : RedisState) :
    (joinRoomRemoteGo now roomId m pw cu d R).2.rooms = R.rooms := by
  unfold joinRoomRemoteGo
  split <;> simp [RedisState.hsetMember, RedisState.hsetUser]

/-- The join tail never touches the room TTL table. -/
theorem joinRoomRemoteGo_roomsTTL (now : Nat) (roomId m : String) (pw : Option String)
    (cu : Member) (d : RoomData) (R : RedisState) :
    (joinRoomRemoteGo now roomId m pw cu d R).2.roomsTTL = R.roomsTTL := by
  unfold joinRoomRemoteGo
  split <;> simp [RedisState.hsetMember, RedisState.hsetUser]

/-- A successful join tail stamps the 24h TTL on both the members key and
the session key it has just written. -/
theorem joinRoomRemoteGo_ttl (now : Nat) (roomId m : String) (pw : Option String)
    (cu : Member) (d : RoomData) (R : RedisState)
    (h : (joinRoomRemoteGo now roomId m pw cu d R).1.success = true) :
    alookup roomId (joinRoomRemoteGo now roomId m pw cu d R).2.membersTTL = some ROOM_TTL
    ∧ alookup m (joinRoomRemoteGo now roomId m pw cu d R).2.usersTTL = some ROOM_TTL := by
  by_cases hg : ((d.hasPassword = "1" : Bool) && pwMismatch d.password pw) = true
  · simp [joinRoomRemoteGo, hg] at h
  · constructor <;>
      simp [joinRoomRemoteGo, hg, RedisState.hsetMember, RedisState.hsetUser,
        expireMembers_membersTTL_of_isSome, expireUser_usersTTL_of_isSome]

/-- C7 counterexample: `leaveRoom` on a two-member room writes the members
key (removing the leaver) but does not re-apply the 24-hour TTL — the
stale TTL of 5 seconds survives the write, contradicting the claim for
`leaveRoom`'s write path. -/
theorem C7_counterexample :
    (alookup "r" twoMemberStore.redis.members).isSome
    ∧ alookup "r" (leaveRoom true "r" "m1" twoMemberStore).2.redis.members
        = some [("m2", ⟨"m2", "Bob"⟩)]
    ∧ alookup "r" (leaveRoom true "r" "m1" twoMemberStore).2.redis.members
        ≠ alookup "r" twoMemberStore.redis.members
    ∧ alookup "r" (leaveRoom true "r" "m1" twoMemberStore).2.redis.membersTTL = some 5
    ∧ (5 : Nat) ≠ ROOM_TTL := by
  decide

/-- C7 (amended): every remote write that creates or updates a room hash,
a membership entry, a session entry or a chat entry re-applies the 24-hour
TTL in the same operation — across `createRoom`, `checkRoom`'s recovery,
`joinRoom` and `saveChatMessage`; `leaveRoom` however performs only
deletions and never refreshes a TTL: after it, the members-key TTL is
either gone (key deleted) or exactly what it was before. -/
theorem C7_ttl_refresh_amended :
    (∀ (now : Nat) (roomId : String) (pw : Option String) (R : RedisState),
        (createRoomRemote now roomId pw R).1.success = true →
        alookup roomId (createRoomRemote now roomId pw R).2.roomsTTL = some ROOM_TTL)
    ∧ (∀ (now : Nat) (roomId : String) (R : RedisState),
        alookup roomId (checkRoomRemote now roomId R).2.rooms ≠ alookup roomId R.rooms →
        alookup roomId (checkRoomRemote now roomId R).2.roomsTTL = some ROOM_TTL)
    ∧ (∀ (now : Nat) (roomId m : String) (pw dn : Option String) (R : RedisState),
        (joinRoomRemote now roomId m pw dn R).1.success = true →
        alookup roomId (joinRoomRemote now roomId m pw dn R).2.membersTTL = some ROOM_TTL
        ∧ alookup m (joinRoomRemote now roomId m pw dn R).2.usersTTL = some ROOM_TTL)
    ∧ (∀ (now : Nat) (roomId m : String) (pw dn : Option String) (R : RedisState),
        alookup roomId (joinRoomRemote now roomId m pw dn R).2.rooms
            ≠ alookup roomId R.rooms →
        alookup roomId (joinRoomRemote now roomId m pw dn R).2.roomsTTL = some ROOM_TTL)
    ∧ (∀ (roomId msg : String) (R : RedisState),
        alookup roomId (saveChatMessageRemote roomId msg R).chatTTL = some ROOM_TTL)
    ∧ (∀ (roomId m : String) (R : RedisState),
        alookup roomId (leaveRoomRemote roomId m R).2.membersTTL = none
        ∨ alookup roomId (leaveRoomRemote roomId m R).2.membersTTL
            = alookup roomId R.membersTTL) := by
  refine ⟨?_, ?_, ?_, ?_, ?_, ?_⟩
  · intro now roomId pw R h
    by_cases hex : (alookup roomId R.rooms).isSome
    · simp [createRoomRemote, hex] at h
    · simp [createRoomRemote, hex, RedisState.hsetRoom,
        expireRoom_roomsTTL_of_isSome]
  · intro now roomId R hne
    cases halo : alookup roomId R.rooms with
    | none =>
      by_cases hm : R.hlenMembers roomId > 0
      · simp [checkRoomRemote, halo, hm, RedisState.hsetRoom,
          expireRoom_roomsTTL_of_isSome]
      · simp [checkRoomRemote, halo, hm] at hne
    | some d => simp [checkRoomRemote, halo] at hne
  · intro now roomId m pw dn R h
    unfold joinRoomRemote at h ⊢
    cases halo : alookup roomId R.rooms with
    | none =>
      rw [halo] at h
      by_cases hm : R.hlenMembers roomId > 0
      · simp only [hm, if_true] at h ⊢
        exact joinRoomRemoteGo_ttl now roomId m pw _ _ _ h
      · simp [hm] at h
    | some d =>
      rw [halo] at h
      exact joinRoomRemoteGo_ttl now roomId m pw _ _ _ h
  · intro now roomId m pw dn R hne
    unfold joinRoomRemote at hne ⊢
    cases halo : alookup roomId R.rooms with
    | none =>
      by_cases hm : R.hlenMembers roomId > 0
      · simp only [hm, if_true]
        simp [joinRoomRemoteGo_roomsTTL, RedisState.hsetRoom,
          expireRoom_roomsTTL_of_isSome]
      · simp [hm, halo] at hne
    | some d =>
      simp [joinRoomRemoteGo_rooms, halo] at hne
  · intro roomId msg R
    simp [saveChatMessageRemote]
  · intro roomId m R
    unfold leaveRoomRemote RedisState.hdelMember
    cases halo : alookup roomId R.members with
    | none =>
      left
      simp [halo, RedisState.delUser, RedisState.hlenMembers,
        RedisState.delRoom, RedisState.delMembers, RedisState.delChat,
        RedisState.sremActive]
    | some cur =>
      by_cases hemp : (aerase m cur).isEmpty
      · left
        simp [halo, hemp, RedisState.delUser, RedisState.hlenMembers,
          RedisState.delRoom, RedisState.delMembers, RedisState.delChat,
          RedisState.sremActive]
      · right
        have hne : aerase m cur ≠ [] := by
          simpa [List.isEmpty_iff] using hemp
        simp [halo, hemp, hne, RedisState.delUser, RedisState.hlenMembers]

theorem take_append_take (n : Nat) (A B : List α) :
    (A ++ B.take n).take n = (A ++ B).take n := by
  rw [List.take_append_eq_append_take, List.take_append_eq_append_take,
    List.take_take, Nat.min_eq_left (Nat.sub_le n A.length)]

theorem take_reverse_reverse (k : Nat) (l : List α) :
    (l.reverse.take k).reverse = l.drop (l.length - k) := by
  have h : (l.reverse.take k).reverse
      = l.reverse.reverse.drop (l.reverse.length - k) := List.reverse_take
  simpa using h

/-- One `saveChatMessage` pushes the message at the head and truncates to
100 entries, in either backend, as long as the stored log is within the
bound (which every reachable log is). -/
theorem chatListAt_save (avail : Bool) (roomId msg : String) (s : Store)
    (h : (chatListAt avail roomId s).length ≤ 100) :
    chatListAt avail roomId (saveChatMessage avail roomId msg s)
      = (msg :: chatListAt avail roomId s).take 100 := by
  cases avail with
  | true => simp [chatListAt, saveChatMessage, saveChatMessageRemote]
  | false =>
    simp only [chatListAt, Bool.false_eq_true, if_false] at h ⊢
    by_cases hlen : ((msg :: (alookup roomId s.memory.chat).getD []).length > 100)
    · have h100 : ((alookup roomId s.memory.chat).getD []).length = 100 := by
        simp only [List.length_cons] at hlen
        omega
      simp [saveChatMessage, saveChatMessageMemory, hlen, List.dropLast_eq_take, h100]
    · have hle : (msg :: (alookup roomId s.memory.chat).getD []).length ≤ 100 := by
        simp only [List.length_cons] at hlen ⊢
        omega
      have hcond : ¬(100 < ((alookup roomId s.memory.chat).getD []).length + 1) := by
        simp only [List.length_cons] at hle
        omega
      rw [List.take_of_length_le hle]
      simp [saveChatMessage, saveChatMessageMemory, hcond]

/-- Appending a message sequence to a bounded log leaves the 100 newest of
(sequence reversed ++ old log). -/
theorem chatListAt_saveSeq (avail : Bool) (roomId : String) (msgs : List String)
    (s : Store) (h : (chatListAt avail roomId s).length ≤ 100) :
    chatListAt avail roomId (saveSeq avail roomId msgs s)
      = (msgs.reverse ++ chatListAt avail roomId s).take 100 := by
  induction msgs generalizing s with
  | nil => simp [saveSeq, List.take_of_length_le h]
  | cons m ms ih =>
    have hstep := chatListAt_save avail roomId m s h
    have h' : (chatListAt avail roomId (saveChatMessage avail roomId m s)).length ≤ 100 := by
      rw [hstep]
      exact List.length_take_le 100 _
    have hrec := ih (saveChatMessage avail roomId m s) h'
    rw [show saveSeq avail roomId (m :: ms) s
        = saveSeq avail roomId ms (saveChatMessage avail roomId m s) from rfl]
    rw [hrec, hstep, take_append_take]
    simp

/-- C6 counterexample: with `limit = 0` the remote branch runs
`LRANGE 0 -1` and returns the whole log — more than `limit` messages —
while the local fallback's `slice(0, 0)` returns none. -/
theorem C6_counterexample :
    getChatHistory true "c" 0 (saveSeq true "c" ["a", "b"] emptyStore) = ["a", "b"]
    ∧ ¬(getChatHistory true "c" 0 (saveSeq true "c" ["a", "b"] emptyStore)).length ≤ 0
    ∧ getChatHistory false "c" 0 (saveSeq false "c" ["a", "b"] emptyStore) = [] := by
  decide

/-- C6 (amended): starting from an empty per-room log, appending any
message sequence stores the 100 most recent ones newest-first, and for any
`limit ≥ 1` `getChatHistory` returns the `min limit 100` most recent
messages in chronological order — at most `limit` of them; in particular
150 appended messages leave exactly messages 51..150 retrievable via
`getChatHistory(roomId, 100)`.  (As stated the claim fails only at
`limit = 0`, where the remote backend returns the whole log.) -/
theorem C6_chat_history_amended (avail : Bool) (roomId : String)
    (msgs : List String) (limit : Nat) (s : Store)
    (h0 : chatListAt avail roomId s = []) (hlim : 1 ≤ limit) :
    getChatHistory avail roomId limit (saveSeq avail roomId msgs s)
        = msgs.drop (msgs.length - min limit 100)
    ∧ (getChatHistory avail roomId limit (saveSeq avail roomId msgs s)).length ≤ limit
    ∧ (msgs.length = 150 →
        getChatHistory avail roomId 100 (saveSeq avail roomId msgs s) = msgs.drop 50) := by
  have hacc := chatListAt_saveSeq avail roomId msgs s (by rw [h0]; simp)
  rw [h0] at hacc
  simp only [List.append_nil] at hacc
  have hist : ∀ lim : Nat, 1 ≤ lim →
      getChatHistory avail roomId lim (saveSeq avail roomId msgs s)
        = msgs.drop (msgs.length - min lim 100) := by
    intro lim hl
    have hlz : ¬(lim = 0) := by omega
    have hchat : getChatHistory avail roomId lim (saveSeq avail roomId msgs s)
        = ((chatListAt avail roomId (saveSeq avail roomId msgs s)).take lim).reverse := by
      cases avail with
      | true => simp [getChatHistory, getChatHistoryRemote, chatListAt, hlz]
      | false => simp [getChatHistory, getChatHistoryMemory, chatListAt]
    rw [hchat, hacc, List.take_take, take_reverse_reverse]
  refine ⟨hist limit hlim, ?_, ?_⟩
  · rw [hist limit hlim]
    have hk : min limit 100 ≤ limit := Nat.min_le_left limit 100
    rw [List.length_drop]
    omega
  · intro h150
    rw [hist 100 (by omega), h150]
    norm_num

@[simp] theorem hdelMember_rooms (R : RedisState) (r m : String) :
    (R.hdelMember r m).rooms = R.rooms := by
  cases halo : alookup r R.members with
  | none => simp [RedisState.hdelMember, halo]
  | some cur =>
    by_cases hemp : (aerase m cur).isEmpty <;>
      simp [RedisState.hdelMember, halo, hemp]

@[simp] theorem hdelMember_roomsTTL (R : RedisState) (r m : String) :
    (R.hdelMember r m).roomsTTL = R.roomsTTL := by
  cases halo : alookup r R.members with
  | none => simp [RedisState.hdelMember, halo]
  | some cur =>
    by_cases hemp : (aerase m cur).isEmpty <;>
      simp [RedisState.hdelMember, halo, hemp]

theorem createRoomRemote_inv (now : Nat) (roomId : String) (pw : Option String)
    (R : RedisState) (h : roomsTTLInv R) :
    roomsTTLInv (createRoomRemote now roomId pw R).2 := by
  intro id hid
  by_cases hex : (alookup roomId R.rooms).isSome
  · simp only [createRoomRemote] at hid ⊢
    rw [if_pos hex] at hid ⊢
    exact h id hid
  · simp only [createRoomRemote] at hid ⊢
    rw [if_neg hex] at hid ⊢
    by_cases hidr : id = roomId
    · subst hidr
      simp [RedisState.hsetRoom, expireRoom_roomsTTL_of_isSome]
    · rw [saddActive_roomsTTL, expireRoom_roomsTTL_of_isSome _ _ _
        (by simp [RedisState.hsetRoom]), alookup_aset_ne roomId id hidr]
      apply h id
      simpa [RedisState.hsetRoom, alookup_aset_ne roomId id hidr] using hid

theorem checkRoomRemote_inv (now : Nat) (roomId : String) (R : RedisState)
    (h : roomsTTLInv R) : roomsTTLInv (checkRoomRemote now roomId R).2 := by
  intro id hid
  cases halo : alookup roomId R.rooms with
  | some d =>
    simp only [checkRoomRemote, halo] at hid ⊢
    exact h id hid
  | none =>
    by_cases hm : R.hlenMembers roomId > 0
    · simp only [checkRoomRemote, halo] at hid ⊢
      rw [if_pos hm] at hid ⊢
      by_cases hidr : id = roomId
      · subst hidr
        simp [RedisState.hsetRoom, expireRoom_roomsTTL_of_isSome]
      · rw [saddActive_roomsTTL, expireRoom_roomsTTL_of_isSome _ _ _
          (by simp [RedisState.hsetRoom]), alookup_aset_ne roomId id hidr]
        apply h id
        simpa [RedisState.hsetRoom, alookup_aset_ne roomId id hidr] using hid
    · simp only [checkRoomRemote, halo] at hid ⊢
      rw [if_neg hm] at hid ⊢
      exact h id hid

theorem joinRoomRemote_inv (now : Nat) (roomId m : String) (pw dn : Option String)
    (R : RedisState) (h : roomsTTLInv R) :
    roomsTTLInv (joinRoomRemote now roomId m pw dn R).2 := by
  intro id hid
  unfold joinRoomRemote at hid ⊢
  cases halo : alookup roomId R.rooms with
  | some d =>
    rw [halo] at hid
    have hid2 : (alookup id (joinRoomRemoteGo now roomId m pw
        ⟨m, defaultName m dn⟩ d R).2.rooms).isSome = true := hid
    show alookup id (joinRoomRemoteGo now roomId m pw
      ⟨m, defaultName m dn⟩ d R).2.roomsTTL = some ROOM_TTL
    rw [joinRoomRemoteGo_roomsTTL]
    rw [joinRoomRemoteGo_rooms] at hid2
    exact h id hid2
  | none =>
    rw [halo] at hid
    by_cases hm : R.hlenMembers roomId > 0
    · simp only [hm, if_true] at hid ⊢
      have hid2 : (alookup id (joinRoomRemoteGo now roomId m pw
          ⟨m, defaultName m dn⟩ (recoveredRoomData now)
          (((R.hsetRoom roomId (recoveredRoomData now)).expireRoom roomId
            ROOM_TTL).saddActive roomId)).2.rooms).isSome = true := hid
      show alookup id (joinRoomRemoteGo now roomId m pw
        ⟨m, defaultName m dn⟩ (recoveredRoomData now)
        (((R.hsetRoom roomId (recoveredRoomData now)).expireRoom roomId
          ROOM_TTL).saddActive roomId)).2.roomsTTL = some ROOM_TTL
      rw [joinRoomRemoteGo_roomsTTL, saddActive_roomsTTL,
        expireRoom_roomsTTL_of_isSome _ _ _ (by simp [RedisState.hsetRoom])]
      simp only [joinRoomRemoteGo_rooms, saddActive_rooms, expireRoom_rooms,
        RedisState.hsetRoom] at hid2
      by_cases hidr : id = roomId
      · subst hidr
        simp [RedisState.hsetRoom]
      · rw [alookup_aset_ne roomId id hidr]
        apply h id
        simpa [alookup_aset_ne roomId id hidr] using hid2
    · simp only [hm, if_false] at hid ⊢
      exact h id hid

theorem leaveRoomRemote_inv (roomId m : String) (R : RedisState)
    (h : roomsTTLInv R) : roomsTTLInv (leaveRoomRemote roomId m R).2 := by
  intro id hid
  unfold leaveRoomRemote at hid ⊢
  by_cases hz : ((R.hdelMember roomId m).delUser m).hlenMembers roomId = 0
  · rw [if_pos hz] at hid ⊢
    by_cases hidr : id = roomId
    · subst hidr
      simp [RedisState.delRoom, RedisState.delMembers, RedisState.delChat,
        RedisState.sremActive, RedisState.delUser] at hid
    · simp only [RedisState.delRoom, RedisState.delMembers, RedisState.delChat,
        RedisState.sremActive, RedisState.delUser] at hid ⊢
      simp only [hdelMember_rooms, hdelMember_roomsTTL,
        alookup_aerase_ne roomId id hidr] at hid ⊢
      exact h id hid
  · rw [if_neg hz] at hid ⊢
    simp only [RedisState.delUser, hdelMember_rooms, hdelMember_roomsTTL] at hid ⊢
    exact h id hid

theorem saveChatMessageRemote_inv (roomId msg : String) (R : RedisState)
    (h : roomsTTLInv R) : roomsTTLInv (saveChatMessageRemote roomId msg R) := by
  intro id hid
  simp only [saveChatMessageRemote] at hid ⊢
  exact h id hid

theorem applyOp_roomsTTLInv (s : Store) (op : Op) (h : roomsTTLInv s.redis) :
    roomsTTLInv (applyOp s op).redis := by
  cases op with
  | create avail now roomId pw =>
    cases avail
    · exact h
    · exact createRoomRemote_inv now roomId pw s.redis h
  | check avail now roomId =>
    cases avail
    · exact h
    · exact checkRoomRemote_inv now roomId s.redis h
  | join avail now roomId socketId pw dn =>
    cases avail
    · exact h
    · exact joinRoomRemote_inv now roomId socketId pw dn s.redis h
  | leave avail roomId socketId =>
    cases avail
    · exact h
    · exact leaveRoomRemote_inv roomId socketId s.redis h
  | save avail roomId msg =>
    cases avail
    · exact h
    · exact saveChatMessageRemote_inv roomId msg s.redis h

theorem applyOps_roomsTTLInv (ops : List Op) (s : Store) (h : roomsTTLInv s.redis) :
    roomsTTLInv (applyOps ops s).redis := by
  induction ops generalizing s with
  | nil => exact h
  | cons op ops ih => exact ih (applyOp s op) (applyOp_roomsTTLInv s op h)

/-- C8 counterexample: in the local fallback, `createRoom` alone produces a
reachable state holding a room record with zero members, and the room
survives the operations that could reclaim it (`leaveRoom` skips cleanup
when the members map entry is absent, `checkRoom` and `saveChatMessage`
never delete) — the fallback has no TTL, so the record is not
bounded-lifetime: it persists with zero members. -/
theorem C8_counterexample :
    (alookup "r8" (applyOps [Op.create false 3 "r8" none]
        emptyStore).memory.rooms).isSome
    ∧ alookup "r8" (applyOps [Op.create false 3 "r8" none]
        emptyStore).memory.members = none
    ∧ (alookup "r8" (applyOps [Op.create false 3 "r8" none,
        Op.leave false "r8" "m", Op.check false 9 "r8",
        Op.save false "other" "x"] emptyStore).memory.rooms).isSome
    ∧ alookup "r8" (applyOps [Op.create false 3 "r8" none,
        Op.leave false "r8" "m", Op.check false 9 "r8",
        Op.save false "other" "x"] emptyStore).memory.members = none := by
  decide

/-- C8 (amended): in every state reachable from the empty store by any
sequence of operations, every room record present in the remote backend
carries the 24-hour TTL, so a remote room with zero members is
expiry-bounded.  (As stated the claim fails in the local fallback, where a
created-but-never-joined room has zero members, no TTL exists, and no
operation reclaims it.) -/
theorem C8_zero_member_room_amended (ops : List Op) (id : String) :
    (alookup id (applyOps ops emptyStore).redis.rooms).isSome →
    alookup id (applyOps ops emptyStore).redis.roomsTTL = some ROOM_TTL :=
  applyOps_roomsTTLInv ops emptyStore (fun i hi => by simp [emptyStore, emptyRedis] at hi) id

/-- C2: every store operation samples backend availability once at its
start (each embedded operation is a function of that single sample) and
then runs entirely against the selected backend: under remote availability
the result and the remote state are independent of the local state and the
local state is untouched; under local fallback the result and the local
state are independent of the remote state and the remote state is
untouched.  No operation reads one backend and writes the other, and none
partially applies to both. -/
theorem C2_backend_duality :
    ∀ (now limit : Nat) (roomId socketId msg : String) (pw dn : Option String)
      (R R' : RedisState) (M M' : MemoryState),
      ((createRoom true now roomId pw ⟨R, M⟩).1 = (createRoom true now roomId pw ⟨R, M'⟩).1
        ∧ (createRoom true now roomId pw ⟨R, M⟩).2.memory = M
        ∧ (createRoom true now roomId pw ⟨R, M⟩).2.redis
            = (createRoom true now roomId pw ⟨R, M'⟩).2.redis
        ∧ (createRoom false now roomId pw ⟨R, M⟩).1 = (createRoom false now roomId pw ⟨R', M⟩).1
        ∧ (createRoom false now roomId pw ⟨R, M⟩).2.redis = R
        ∧ (createRoom false now roomId pw ⟨R, M⟩).2.memory
            = (createRoom false now roomId pw ⟨R', M⟩).2.memory)
      ∧ ((checkRoom true now roomId ⟨R, M⟩).1 = (checkRoom true now roomId ⟨R, M'⟩).1
        ∧ (checkRoom true now roomId ⟨R, M⟩).2.memory = M
        ∧ (checkRoom true now roomId ⟨R, M⟩).2.redis = (checkRoom true now roomId ⟨R, M'⟩).2.redis
        ∧ (checkRoom false now roomId ⟨R, M⟩).1 = (checkRoom false now roomId ⟨R', M⟩).1
        ∧ (checkRoom false now roomId ⟨R, M⟩).2.redis = R
        ∧ (checkRoom false now roomId ⟨R, M⟩).2.memory
            = (checkRoom false now roomId ⟨R', M⟩).2.memory)
      ∧ ((joinRoom true now roomId socketId pw dn ⟨R, M⟩).1
            = (joinRoom true now roomId socketId pw dn ⟨R, M'⟩).1
        ∧ (joinRoom true now roomId socketId pw dn ⟨R, M⟩).2.memory = M
        ∧ (joinRoom true now roomId socketId pw dn ⟨R, M⟩).2.redis
            = (joinRoom true now roomId socketId pw dn ⟨R, M'⟩).2.redis
        ∧ (joinRoom false now roomId socketId pw dn ⟨R, M⟩).1
            = (joinRoom false now roomId socketId pw dn ⟨R', M⟩).1
        ∧ (joinRoom false now roomId socketId pw dn ⟨R, M⟩).2.redis = R
        ∧ (joinRoom false now roomId socketId pw dn ⟨R, M⟩).2.memory
            = (joinRoom false now roomId socketId pw dn ⟨R', M⟩).2.memory)
      ∧ ((leaveRoom true roomId socketId ⟨R, M⟩).1 = (leaveRoom true roomId socketId ⟨R, M'⟩).1
        ∧ (leaveRoom true roomId socketId ⟨R, M⟩).2.memory = M
        ∧ (leaveRoom true roomId socketId ⟨R, M⟩).2.redis
            = (leaveRoom true roomId socketId ⟨R, M'⟩).2.redis
        ∧ (leaveRoom false roomId socketId ⟨R, M⟩).1 = (leaveRoom false roomId socketId ⟨R', M⟩).1
        ∧ (leaveRoom false roomId socketId ⟨R, M⟩).2.redis = R
        ∧ (leaveRoom false roomId socketId ⟨R, M⟩).2.memory
            = (leaveRoom false roomId socketId ⟨R', M⟩).2.memory)
      ∧ ((saveChatMessage true roomId msg ⟨R, M⟩).memory = M
        ∧ (saveChatMessage true roomId msg ⟨R, M⟩).redis
            = (saveChatMessage true roomId msg ⟨R, M'⟩).redis
        ∧ (saveChatMessage false roomId msg ⟨R, M⟩).redis = R
        ∧ (saveChatMessage false roomId msg ⟨R, M⟩).memory
            = (saveChatMessage false roomId msg ⟨R', M⟩).memory)
      ∧ (getRoomUsers true roomId ⟨R, M⟩ = getRoomUsers true roomId ⟨R, M'⟩
        ∧ getRoomUsers false roomId ⟨R, M⟩ = getRoomUsers false roomId ⟨R', M⟩)
      ∧ (getUser true roomId socketId ⟨R, M⟩ = getUser true roomId socketId ⟨R, M'⟩
        ∧ getUser false roomId socketId ⟨R, M⟩ = getUser false roomId socketId ⟨R', M⟩)
      ∧ (getUserSession true socketId ⟨R, M⟩ = getUserSession true socketId ⟨R, M'⟩
        ∧ getUserSession false socketId ⟨R, M⟩ = getUserSession false socketId ⟨R', M⟩)
      ∧ (getChatHistory true roomId limit ⟨R, M⟩ = getChatHistory true roomId limit ⟨R, M'⟩
        ∧ getChatHistory false roomId limit ⟨R, M⟩ = getChatHistory false roomId limit ⟨R', M⟩) := by
  intro now limit roomId socketId msg pw dn R R' M M'
  exact ⟨⟨rfl, rfl, rfl, rfl, rfl, rfl⟩, ⟨rfl, rfl, rfl, rfl, rfl, rfl⟩,
    ⟨rfl, rfl, rfl, rfl, rfl, rfl⟩, ⟨rfl, rfl, rfl, rfl, rfl, rfl⟩,
    ⟨rfl, rfl, rfl, rfl⟩, ⟨rfl, rfl⟩, ⟨rfl, rfl⟩, ⟨rfl, rfl⟩, ⟨rfl, rfl⟩⟩

/-! ### Concrete instantiations of the hypothesis-bearing claim theorems -/

/-- C1 instantiated on a one-member orphaned room at clock 42. -/
theorem C1_checkRoom_auto_recovery_witness :
    alookup "r" orphanStore.redis.rooms = none
    ∧ 0 < orphanStore.redis.hlenMembers "r"
    ∧ (checkRoom true 42 "r" orphanStore).1
        = { roomExists := true, hasPassword := some false,
            userCount := some (orphanStore.redis.hlenMembers "r"),
            startTime := some 42 } :=
  ⟨rfl, by decide, (C1_checkRoom_auto_recovery 42 "r" orphanStore rfl (by decide)).1⟩

/-- C3 instantiated on a one-member room with chat history. -/
theorem C3_last_leave_purges_room_witness :
    membersAt true "r" lastMemberStore = some [("m1", ⟨"m1", "Alice"⟩)]
    ∧ (leaveRoom true "r" "m1" lastMemberStore).1 = []
    ∧ roomsAt true "r" (leaveRoom true "r" "m1" lastMemberStore).2 = none :=
  ⟨by decide,
   (C3_last_leave_purges_room true 7 9 "r" "m1" ⟨"m1", "Alice"⟩ lastMemberStore
     (by decide)).1,
   (C3_last_leave_purges_room true 7 9 "r" "m1" ⟨"m1", "Alice"⟩ lastMemberStore
     (by decide)).2.1⟩

/-- C4 instantiated: fresh room `r1`, password `pw`, wrong password `x`. -/
theorem C4_password_gate_witness :
    roomsAt true "r1" emptyStore = none ∧ "pw" ≠ "" ∧ "x" ≠ "pw"
    ∧ (joinRoom true 2 "r1" "m1" (some "x") none
        (createRoom true 1 "r1" (some "pw") emptyStore).2).1
        = { success := false, error := some "Invalid password",
            requiresPassword := some true } :=
  ⟨rfl, by decide, by decide,
   (C4_password_gate true 1 2 "r1" "m1" none "pw" "x" emptyStore rfl
     (by decide) (by decide)).2.2.1⟩

/-- C5 (amended) instantiated: leaving a fully absent room is a no-op. -/
theorem C5_leave_noop_amended_witness :
    roomAbsentEverywhere true "g" "m9" emptyStore
    ∧ leaveRoom true "g" "m9" emptyStore = ([], emptyStore) :=
  ⟨by simp [roomAbsentEverywhere, emptyStore, emptyRedis],
   (C5_leave_noop_amended true "g" "m9" emptyStore).2.1
     (by simp [roomAbsentEverywhere, emptyStore, emptyRedis])⟩

/-- C6 (amended) instantiated: three messages, limit 2. -/
theorem C6_chat_history_amended_witness :
    chatListAt true "c" emptyStore = [] ∧ 1 ≤ 2
    ∧ getChatHistory true "c" 2 (saveSeq true "c" ["x", "y", "z"] emptyStore)
        = ["x", "y", "z"].drop (["x", "y", "z"].length - min 2 100) :=
  ⟨rfl, by decide,
   (C6_chat_history_amended true "c" ["x", "y", "z"] 2 emptyStore rfl (by decide)).1⟩

/-- C7 (amended) instantiated on the `createRoom` write path. -/
theorem C7_ttl_refresh_amended_witness :
    (createRoomRemote 1 "r" none emptyRedis).1.success = true
    ∧ alookup "r" (createRoomRemote 1 "r" none emptyRedis).2.roomsTTL
        = some ROOM_TTL :=
  ⟨by decide, C7_ttl_refresh_amended.1 1 "r" none emptyRedis (by decide)⟩

/-- C8 (amended) instantiated after a single remote `createRoom`. -/
theorem C8_zero_member_room_amended_witness :
    (alookup "r" (applyOps [Op.create true 1 "r" none] emptyStore).redis.rooms).isSome
    ∧ alookup "r" (applyOps [Op.create true 1 "r" none] emptyStore).redis.roomsTTL
        = some ROOM_TTL :=
  ⟨by decide, C8_zero_member_room_amended [Op.create true 1 "r" none] "r" (by decide)⟩

/-- C9 instantiated: first joiner of `r9` sets password `secret`. -/
theorem C9_fallback_join_autocreates_witness :
    alookup "r9" emptyStore.memory.rooms = none
    ∧ (joinRoom false 5 "r9" "mm" (some "secret") (some "Dan") emptyStore).1.success
        = true :=
  ⟨rfl, (C9_fallback_join_autocreates 5 "r9" "mm" (some "secret") (some "Dan")
    emptyStore rfl).1⟩

/-- C10 instantiated: `m1` occupies room `r`, leave is issued for `bogus`. -/
theorem C10_speculative_leave_kills_session_witness :
    sessionAt true "m1" twoMemberStore = some ⟨"r", "Alice", 1⟩
    ∧ ("bogus" : String) ≠ "r"
    ∧ sessionAt true "m1" (leaveRoom true "bogus" "m1" twoMemberStore).2 = none :=
  ⟨by decide, by decide,
   (C10_speculative_leave_kills_session true "r" "bogus" "m1" ⟨"r", "Alice", 1⟩
     twoMemberStore (by decide) rfl (by decide)).1⟩

end Signaling
